import Mathlib

/-!
# Verification of the talowa4 infrastructure scripts

A shallow embedding of the two Python source files:

* `src/scripts/infrastructure_automation.py` — the `InfrastructureAutomation`
  class: `__init__`, `load_config` and `get_default_config`.  The file in the
  repository is truncated: it ends inside the `get_default_config` dictionary
  literal, right after the `'location': 'us-central'` entry of the
  `firestore` section.  The embedding covers exactly the code that is present.
* `src/fix_navigation_guards.py` — the trailing-bracket cleanup pass of
  `fix_navigation_guard_file` (the loop over the split lines that pops at
  most one `');'` line).

Filesystem access (`open`) and YAML parsing (`yaml.safe_load`) are external
collaborators; they are modelled as explicit parameters (`fs`, `parse`), so
theorems quantify over every possible behaviour of the collaborators.
-/

namespace Talowa

/-- Dynamic values as produced by the Python YAML loader: `None`, booleans,
integers, strings, sequences and string-keyed mappings. -/
inductive Yaml where
  | null : Yaml
  | bool (b : Bool) : Yaml
  | int (n : Int) : Yaml
  | str (s : String) : Yaml
  | seq (xs : List Yaml) : Yaml
  | map (kvs : List (String × Yaml)) : Yaml
  deriving Repr

/-- Dictionary lookup on a `Yaml.map` (Python `d[k]` / `d.get(k)`). -/
def Yaml.get? : Yaml → String → Option Yaml
  | .map kvs, k => kvs.lookup k
  | _, _ => none

/-- The keys of a `Yaml.map`, in order. -/
def Yaml.keys : Yaml → List String
  | .map kvs => kvs.map Prod.fst
  | _ => []

/-- Lookup along a path of keys. -/
def Yaml.getPath : Yaml → List String → Option Yaml
  | y, [] => some y
  | y, k :: ks =>
    match y.get? k with
    | some v => Yaml.getPath v ks
    | none => none

/-- `InfrastructureAutomation.get_default_config`: the built-in default
configuration dictionary, transcribed field by field from the source.  The
source file is truncated immediately after the `'location': 'us-central'`
entry of `firestore`; the embedding holds exactly the entries present in the
file. -/
def get_default_config : Yaml :=
  .map [
    ("project", .map [
      ("id", .str "talowa"),
      ("region", .str "us-central1"),
      ("zone", .str "us-central1-a")]),
    ("services", .map [
      ("websocket", .map [
        ("instances", .int 10),
        ("cpu", .int 2),
        ("memory", .str "4Gi"),
        ("max_connections", .int 10000)]),
      ("turn_servers", .map [
        ("instances", .int 5),
        ("cpu", .int 4),
        ("memory", .str "8Gi"),
        ("ports", .seq [.int 3478, .int 5349])]),
      ("load_balancer", .map [
        ("type", .str "global"),
        ("ssl_policy", .str "modern")])]),
    ("database", .map [
      ("firestore", .map [
        ("location", .str "us-central")])])]

/-- Outcome of `open(self.config_file, 'r')` plus reading the file: success
with the file's text, `FileNotFoundError`, `PermissionError`, or another
`OSError`. -/
inductive ReadResult where
  | ok (content : String) : ReadResult
  | fileNotFound : ReadResult
  | permissionDenied : ReadResult
  | otherOSError : ReadResult
  deriving DecidableEq, Repr

/-- Python exceptions that can escape `load_config`: the uncaught read
errors and the YAML parser's `YAMLError`. -/
inductive PyError where
  | permissionError : PyError
  | osError : PyError
  | yamlError : PyError
  deriving DecidableEq, Repr

/-- Logging levels of the Python `logging` module that the script uses. -/
inductive LogLevel where
  | debug | info | warning | error
  deriving DecidableEq, Repr

/-- One emitted log event: a level and a message. -/
structure LogEvent where
  level : LogLevel
  msg : String
  deriving DecidableEq, Repr

/-- `InfrastructureAutomation.load_config`.  `fs` models the filesystem
(`open` + read on a path), `parse` models `yaml.safe_load`.  The Python body
is a `try` around open-and-parse with a single `except FileNotFoundError`
clause that logs `logger.error(...)` and returns `get_default_config()`;
every other exception (a `PermissionError` or other `OSError` from `open`, a
`YAMLError` from the parser) propagates.  The second component collects the
log events emitted during the call. -/
def load_config (fs : String → ReadResult) (parse : String → Except Unit Yaml)
    (config_file : String) : Except PyError Yaml × List LogEvent :=
  match fs config_file with
  | .ok content =>
    match parse content with
    | .ok v => (.ok v, [])
    | .error _ => (.error .yamlError, [])
  | .fileNotFound =>
    (.ok get_default_config,
      [⟨.error, "Configuration file " ++ config_file ++ " not found"⟩])
  | .permissionDenied => (.error .permissionError, [])
  | .otherOSError => (.error .osError, [])

/-- The state `InfrastructureAutomation.__init__` builds: the config path
and the loaded configuration object (`self.config = self.load_config()`). -/
structure InfrastructureAutomation where
  config_file : String
  config : Yaml
  deriving Repr

/-- `InfrastructureAutomation.__init__`: stores the path and the result of
`load_config`; an exception escaping `load_config` escapes the constructor. -/
def initAutomation (fs : String → ReadResult) (parse : String → Except Unit Yaml)
    (config_file : String) : Except PyError InfrastructureAutomation × List LogEvent :=
  match load_config fs parse config_file with
  | (.ok v, logs) => (.ok ⟨config_file, v⟩, logs)
  | (.error e, logs) => (.error e, logs)

mutual

/-- Spec-side check, named after the spec's data-model invariant: "every
numeric field is strictly positive".  Recursively demands every `Yaml.int`
in the document be `> 0`.  The code under `src/` defines no such check; this
definition exists only to state which documents violate the invariant. -/
def numericFieldsPositive : Yaml → Bool
  | .int n => decide (0 < n)
  | .seq xs => numericFieldsPositiveList xs
  | .map kvs => numericFieldsPositivePairs kvs
  | _ => true

/-- `numericFieldsPositive` over a sequence. -/
def numericFieldsPositiveList : List Yaml → Bool
  | [] => true
  | x :: xs => numericFieldsPositive x && numericFieldsPositiveList xs

/-- `numericFieldsPositive` over a mapping's entries. -/
def numericFieldsPositivePairs : List (String × Yaml) → Bool
  | [] => true
  | kv :: kvs => numericFieldsPositive kv.2 && numericFieldsPositivePairs kvs

end

/-- Spec-side list of the service kinds the data model knows (compute
fleet `websocket`, relay fleet `turn_servers`, `load_balancer`); used to
state that an unknown kind appears in a document. -/
def specKnownKinds : List String := ["websocket", "turn_servers", "load_balancer"]

/-- Spec-side list of the admissible `sslPolicy` enum values. -/
def specSslPolicies : List String := ["modern", "compatible", "legacy"]

/-- Modelled from the spec: the per-kind `ServiceReconciler` action type of
section 4.3.  The reconciler code is not under `src/` (the source file is
truncated before any reconciliation logic); only `Create` and `Update`
actions exist. -/
inductive Action (α : Type) where
  | create (spec : α) : Action α
  | update (spec : α) : Action α
  deriving DecidableEq, Repr

/-- Modelled from the spec: `ServiceReconciler.reconcile` of section 4.3,
whose code is not under `src/`.  Per the spec's words: no observed resource
→ one `Create(desired)`; observed differs from desired by value → one total
`Update(desired)`; observed equals desired → no action. -/
def reconcile {α : Type} [DecidableEq α] (desired : α) :
    Option α → List (Action α)
  | none => [.create desired]
  | some o => if o = desired then [] else [.update desired]

/-! ## `src/fix_navigation_guards.py`: the trailing-bracket cleanup pass -/

/-- Python's default whitespace set for `str.strip()`, restricted to the
ASCII whitespace characters. -/
def pyIsSpace (c : Char) : Bool :=
  c = ' ' || c = '\t' || c = '\n' || c = '\r' || c = '\x0b' || c = '\x0c'

/-- Python `str.strip()`: drop whitespace from both ends. -/
def pyStrip (s : String) : String :=
  String.mk (((s.toList.dropWhile pyIsSpace).reverse.dropWhile pyIsSpace).reverse)

/-- The closing-bracket forms the cleanup recognises on the preceding line:
`[')', '},', ');']` in the source. -/
def closingBracketSet : List String := [")", "\x7d,", ");"]

/-- The condition under which the loop body pops line `i`: the stripped
line is `');'` (with `i > 0`, enforced by the scan) and the stripped
preceding line is one of `closingBracketSet`. -/
def popCond (lines : List String) (i : Nat) : Bool :=
  decide (pyStrip (lines.getD i "") = ");" ∧
    pyStrip (lines.getD (i - 1) "") ∈ closingBracketSet)

/-- The downward scan `for i in range(len(lines) - 1, -1, -1)`: starting at
index `n` and counting down, the first index (hence the largest) at which
`popCond` holds; the `i > 0` guard of the source makes index `0` never
match. -/
def scanIdx (lines : List String) : Nat → Option Nat
  | 0 => none
  | i + 1 => if popCond lines (i + 1) then some (i + 1) else scanIdx lines i

/-- The trailing-bracket cleanup pass of `fix_navigation_guard_file`: pop
the line found by the scan (the loop `break`s right after the pop), or
leave the lines unchanged when the scan finds nothing. -/
def removeExtraClosing (lines : List String) : List String :=
  match scanIdx lines (lines.length - 1) with
  | some i => lines.eraseIdx i
  | none => lines

/-- `content.split('\n')` as the source performs it before the cleanup. -/
def linesOf (content : String) : List String := content.splitOn "\n"

/-- The cleanup pass on whole file content: split, clean, rejoin with
`'\n'.join(lines)`. -/
def cleanupPass (content : String) : String :=
  String.intercalate "\n" (removeExtraClosing (linesOf content))

/-- The property of an index `i` that the claim describes: a positive
in-range index whose stripped line is `');'` and whose stripped preceding
line is one of the closing-bracket forms. -/
def qualifies (lines : List String) (i : Nat) : Prop :=
  0 < i ∧ i < lines.length ∧ pyStrip (lines.getD i "") = ");" ∧
    pyStrip (lines.getD (i - 1) "") ∈ closingBracketSet

/-! ## Claim documents used as concrete inputs -/

/-- A parsed document whose websocket spec has `instances: 0`, violating
the spec's positivity invariant. -/
def zeroInstancesDoc : Yaml :=
  .map [("services", .map [
    ("websocket", .map [
      ("instances", .int 0), ("cpu", .int 2),
      ("memory", .str "4Gi"), ("max_connections", .int 10000)])])]

/-- A parsed document with two invalid fields: `instances: 0` and an
`ssl_policy` value outside the spec's enum. -/
def twoViolationsDoc : Yaml :=
  .map [("services", .map [
    ("websocket", .map [("instances", .int 0)]),
    ("load_balancer", .map [
      ("type", .str "global"), ("ssl_policy", .str "bogus")])])]

/-- A parsed document with a non-positive numeric field and an unknown
service kind `mystery_service`. -/
def unknownKindDoc : Yaml :=
  .map [("services", .map [
    ("websocket", .map [("instances", .int 0)]),
    ("mystery_service", .map [("instances", .int 1)])])]

/-! ## Theorems about `load_config` and the default configuration -/

/-- C1: for every config path the filesystem reports missing
(`FileNotFoundError`), `load_config` returns the built-in default
configuration — the compute fleet (`websocket`), the relay fleet
(`turn_servers`), the global `load_balancer` and the database location all
present with the source's default field values — and does not raise. -/
theorem load_config_missing_file_returns_default
    (fs : String → ReadResult) (parse : String → Except Unit Yaml)
    (path : String) (h : fs path = ReadResult.fileNotFound) :
    (load_config fs parse path).fst = Except.ok get_default_config ∧
    get_default_config.getPath ["services", "websocket"] =
      some (.map [("instances", .int 10), ("cpu", .int 2),
        ("memory", .str "4Gi"), ("max_connections", .int 10000)]) ∧
    get_default_config.getPath ["services", "turn_servers"] =
      some (.map [("instances", .int 5), ("cpu", .int 4),
        ("memory", .str "8Gi"), ("ports", .seq [.int 3478, .int 5349])]) ∧
    get_default_config.getPath ["services", "load_balancer"] =
      some (.map [("type", .str "global"), ("ssl_policy", .str "modern")]) ∧
    get_default_config.getPath ["database", "firestore", "location"] =
      some (.str "us-central") := by
  refine ⟨?_, rfl, rfl, rfl, rfl⟩
  simp [load_config, h]

/-- Witness for C1 at a concrete filesystem, parser and path. -/
theorem load_config_missing_file_returns_default_witness :
    (load_config (fun _ => ReadResult.fileNotFound)
        (fun _ => Except.ok Yaml.null) "infrastructure/config.yaml").fst
      = Except.ok get_default_config :=
  (load_config_missing_file_returns_default _ _ _ rfl).1

/-- C2 counterexample: a path that exists and parses to a document whose
websocket spec violates the positivity invariant loads successfully —
`load_config` returns the document and raises no error of any kind, so in
particular no `ConfigurationError`. -/
theorem load_config_no_error_on_invalid_spec :
    numericFieldsPositive zeroInstancesDoc = false ∧
    load_config (fun _ => ReadResult.ok "websocket instances zero")
        (fun _ => Except.ok zeroInstancesDoc) "infrastructure/config.yaml"
      = (Except.ok zeroInstancesDoc, []) := ⟨rfl, rfl⟩

/-- C2 (amended): when the path exists, a parse failure propagates as the
parser's own `YAMLError` — uncaught, carrying no field path — and a parse
success is returned unchanged, so no invariant violation is ever detected;
`load_config` performs no Cloud API call in either case. -/
theorem load_config_propagates_parse_error
    (fs : String → ReadResult) (parse : String → Except Unit Yaml)
    (path content : String) (hfs : fs path = ReadResult.ok content) :
    (parse content = Except.error () →
      load_config fs parse path = (Except.error PyError.yamlError, [])) ∧
    (∀ v, parse content = Except.ok v →
      load_config fs parse path = (Except.ok v, [])) := by
  constructor
  · intro hp; simp [load_config, hfs, hp]
  · intro v hp; simp [load_config, hfs, hp]

/-- Witness for the amended C2 at a concrete malformed file. -/
theorem load_config_propagates_parse_error_witness :
    load_config (fun _ => ReadResult.ok "]malformed")
        (fun _ => Except.error ()) "infrastructure/config.yaml"
      = (Except.error PyError.yamlError, []) :=
  (load_config_propagates_parse_error (fun _ => ReadResult.ok "]malformed")
    (fun _ => Except.error ()) "infrastructure/config.yaml" "]malformed" rfl).1 rfl

/-- C3 counterexample: a document with two invalid fields (`instances: 0`
and an `ssl_policy` outside the enum) loads with no `ConfigurationError` —
no error at all — so no violation list is ever produced. -/
theorem load_config_no_aggregated_validation :
    load_config (fun _ => ReadResult.ok "two invalid fields")
        (fun _ => Except.ok twoViolationsDoc) "infrastructure/config.yaml"
      = (Except.ok twoViolationsDoc, []) ∧
    numericFieldsPositive twoViolationsDoc = false ∧
    twoViolationsDoc.getPath ["services", "load_balancer", "ssl_policy"]
      = some (.str "bogus") ∧
    specSslPolicies.contains "bogus" = false := ⟨rfl, rfl, rfl, rfl⟩

/-- C3 (amended): no validation pass exists — a successfully parsed
document is returned unchanged even when it violates the invariants, and no
error is produced, so violations are neither detected nor aggregated. -/
theorem load_config_skips_validation
    (fs : String → ReadResult) (parse : String → Except Unit Yaml)
    (path content : String) (v : Yaml) (hfs : fs path = ReadResult.ok content)
    (hp : parse content = Except.ok v)
    (hbad : numericFieldsPositive v = false) :
    load_config fs parse path = (Except.ok v, []) := by
  simp [load_config, hfs, hp]

/-- Witness for the amended C3 at the two-violation document. -/
theorem load_config_skips_validation_witness :
    load_config (fun _ => ReadResult.ok "two invalid fields")
        (fun _ => Except.ok twoViolationsDoc) "cfg.yaml"
      = (Except.ok twoViolationsDoc, []) :=
  load_config_skips_validation _ _ _ _ _ rfl rfl rfl

/-- C4 counterexample: a successfully loaded document may violate the
positivity invariant and carry an unknown service kind — the kind is kept
in the result (not dropped) and nothing is rejected. -/
theorem load_config_accepts_unknown_kind :
    load_config (fun _ => ReadResult.ok "unknown service kind")
        (fun _ => Except.ok unknownKindDoc) "infrastructure/config.yaml"
      = (Except.ok unknownKindDoc, []) ∧
    numericFieldsPositive unknownKindDoc = false ∧
    (unknownKindDoc.get? "services").map Yaml.keys
      = some ["websocket", "mystery_service"] ∧
    specKnownKinds.contains "mystery_service" = false := ⟨rfl, rfl, rfl, rfl⟩

/-- C4 (amended): the built-in default does satisfy the positivity
invariant, but loading enforces nothing: any successfully parsed document —
non-positive numerics and unknown kinds included — is returned unchanged. -/
theorem load_config_no_invariant_enforcement :
    numericFieldsPositive get_default_config = true ∧
    ∀ (fs : String → ReadResult) (parse : String → Except Unit Yaml)
      (path content : String) (v : Yaml), fs path = ReadResult.ok content →
        parse content = Except.ok v →
        (load_config fs parse path).fst = Except.ok v := by
  refine ⟨rfl, ?_⟩
  intro fs parse path content v hfs hp
  simp [load_config, hfs, hp]

/-- C5 (modelled from the spec): `reconcile` emits exactly one
`Create(desired)` when nothing is observed, exactly one total
`Update(desired)` when the observed value differs from the desired one, and
no action when they are equal. -/
theorem reconcile_cases {α : Type} [DecidableEq α] (desired : α) :
    reconcile desired none = [Action.create desired] ∧
    (∀ o, o ≠ desired → reconcile desired (some o) = [Action.update desired]) ∧
    reconcile desired (some desired) = [] := by
  refine ⟨rfl, ?_, ?_⟩
  · intro o ho; simp [reconcile, ho]
  · simp [reconcile]

/-- C6 counterexample: on a permission error, `load_config` raises (the
`PermissionError` is not caught) instead of substituting the default. -/
theorem load_config_fails_on_permission_error :
    load_config (fun _ => ReadResult.permissionDenied)
        (fun _ => Except.ok Yaml.null) "infrastructure/config.yaml"
      = (Except.error PyError.permissionError, []) ∧
    (load_config (fun _ => ReadResult.permissionDenied)
        (fun _ => Except.ok Yaml.null) "infrastructure/config.yaml").fst
      ≠ Except.ok get_default_config := by
  refine ⟨rfl, ?_⟩
  simp [load_config]

/-- C6 (amended): only a missing file (`FileNotFoundError`) triggers the
default fallback; permission errors and other I/O errors propagate as
exceptions instead of being replaced by the default document. -/
theorem load_config_fallback_only_for_missing_file
    (fs : String → ReadResult) (parse : String → Except Unit Yaml)
    (path : String) :
    (fs path = ReadResult.fileNotFound →
      (load_config fs parse path).fst = Except.ok get_default_config) ∧
    (fs path = ReadResult.permissionDenied →
      (load_config fs parse path).fst = Except.error PyError.permissionError) ∧
    (fs path = ReadResult.otherOSError →
      (load_config fs parse path).fst = Except.error PyError.osError) := by
  refine ⟨fun h => ?_, fun h => ?_, fun h => ?_⟩ <;> simp [load_config, h]

/-- C7 counterexample: the event emitted when the file is missing is
error-level (`logger.error` in the source), which is not warning-level. -/
theorem load_config_fallback_logs_error_level :
    (load_config (fun _ => ReadResult.fileNotFound)
        (fun _ => Except.ok Yaml.null) "infrastructure/config.yaml").snd
      = [⟨LogLevel.error,
          "Configuration file infrastructure/config.yaml not found"⟩] ∧
    LogLevel.error ≠ LogLevel.warning := ⟨rfl, by decide⟩

/-- C7 (amended): whenever the fallback fires, the single emitted event is
error-level — no warning-level event is emitted. -/
theorem load_config_fallback_event_level
    (fs : String → ReadResult) (parse : String → Except Unit Yaml)
    (path : String) (h : fs path = ReadResult.fileNotFound) :
    (load_config fs parse path).snd
      = [⟨LogLevel.error, "Configuration file " ++ path ++ " not found"⟩] ∧
    ∀ e ∈ (load_config fs parse path).snd, e.level ≠ LogLevel.warning := by
  have hsnd : (load_config fs parse path).snd
      = [⟨LogLevel.error, "Configuration file " ++ path ++ " not found"⟩] := by
    simp [load_config, h]
  refine ⟨hsnd, ?_⟩
  intro e he
  rw [hsnd] at he
  simp at he
  subst he
  intro hc
  exact LogLevel.noConfusion hc

/-- Witness for the amended C7 at a concrete missing file. -/
theorem load_config_fallback_event_level_witness :
    (load_config (fun _ => ReadResult.fileNotFound)
        (fun _ => Except.ok Yaml.null) "cfg.yaml").snd
      = [⟨LogLevel.error, "Configuration file " ++ "cfg.yaml" ++ " not found"⟩] :=
  (load_config_fallback_event_level _ _ _ rfl).1

/-- C8: for an existing readable file, `load_config` returns the raw parsed
value unchanged — no shape or invariant validation — and `__init__` stores
that value (possibly `None`) as the configuration object. -/
theorem load_config_returns_raw_parse
    (fs : String → ReadResult) (parse : String → Except Unit Yaml)
    (path content : String) (v : Yaml) (hfs : fs path = ReadResult.ok content)
    (hp : parse content = Except.ok v) :
    load_config fs parse path = (Except.ok v, []) ∧
    initAutomation fs parse path = (Except.ok ⟨path, v⟩, []) := by
  have h1 : load_config fs parse path = (Except.ok v, []) := by
    simp [load_config, hfs, hp]
  refine ⟨h1, ?_⟩
  unfold initAutomation
  rw [h1]

/-- Witness for C8: an empty file parses to `None` (`Yaml.null`), and that
`None` becomes the stored configuration object. -/
theorem load_config_returns_raw_parse_witness :
    load_config (fun _ => ReadResult.ok "") (fun _ => Except.ok Yaml.null)
        "infrastructure/config.yaml" = (Except.ok Yaml.null, []) ∧
    initAutomation (fun _ => ReadResult.ok "") (fun _ => Except.ok Yaml.null)
        "infrastructure/config.yaml"
      = (Except.ok ⟨"infrastructure/config.yaml", Yaml.null⟩, []) :=
  load_config_returns_raw_parse _ _ _ _ _ rfl rfl

/-- C9: in the built-in default, `database` is a top-level key, a sibling
of `services`; the `services` mapping holds exactly `websocket`,
`turn_servers` and `load_balancer`, and no `database` entry. -/
theorem default_config_database_is_toplevel :
    Yaml.keys get_default_config = ["project", "services", "database"] ∧
    (get_default_config.get? "services").map Yaml.keys
      = some ["websocket", "turn_servers", "load_balancer"] ∧
    get_default_config.getPath ["services", "database"] = none := ⟨rfl, rfl, rfl⟩

/-! ## Theorems about the trailing-bracket cleanup pass -/

/-- Popping one index removes at most one element from a list. -/
theorem length_eraseIdx_ge {α : Type} :
    ∀ (l : List α) (i : Nat), l.length - 1 ≤ (l.eraseIdx i).length
  | [], _ => by simp
  | _ :: _, 0 => by simp
  | a :: as, i + 1 => by
    have ih := length_eraseIdx_ge as i
    simp only [List.eraseIdx, List.length_cons]
    omega

/-- `popCond` unfolded to its two stripped-string conditions. -/
theorem popCond_eq_true_iff (lines : List String) (i : Nat) :
    popCond lines i = true ↔
      (pyStrip (lines.getD i "") = ");" ∧
        pyStrip (lines.getD (i - 1) "") ∈ closingBracketSet) := by
  simp [popCond]

/-- `qualifies` is `popCond` plus the range bounds the scan enforces. -/
theorem qualifies_iff (lines : List String) (i : Nat) :
    qualifies lines i ↔ (0 < i ∧ i < lines.length ∧ popCond lines i = true) := by
  unfold qualifies
  rw [popCond_eq_true_iff]

/-- A successful scan yields a positive index inside the scanned range at
which `popCond` holds, and no larger index in the range matches (the scan
runs downward and stops at the first hit). -/
theorem scanIdx_some_spec (lines : List String) :
    ∀ n i, scanIdx lines n = some i →
      0 < i ∧ i ≤ n ∧ popCond lines i = true ∧
        ∀ k, i < k → k ≤ n → popCond lines k = false := by
  intro n
  induction n with
  | zero => intro i h; simp [scanIdx] at h
  | succ n ih =>
    intro i h
    unfold scanIdx at h
    by_cases hc : popCond lines (n + 1)
    · simp [hc] at h
      subst h
      refine ⟨Nat.succ_pos n, Nat.le_refl _, hc, ?_⟩
      intro k hk1 hk2
      exact absurd (Nat.lt_of_lt_of_le hk1 hk2) (Nat.lt_irrefl _)
    · simp [hc] at h
      obtain ⟨h1, h2, h3, h4⟩ := ih i h
      refine ⟨h1, Nat.le_succ_of_le h2, h3, ?_⟩
      intro k hk1 hk2
      by_cases hkn : k ≤ n
      · exact h4 k hk1 hkn
      · have hk : k = n + 1 := by omega
        subst hk
        exact Bool.eq_false_iff.mpr hc

/-- A failed scan means `popCond` holds at no positive index of the
scanned range. -/
theorem scanIdx_none_spec (lines : List String) :
    ∀ n, scanIdx lines n = none →
      ∀ k, 0 < k → k ≤ n → popCond lines k = false := by
  intro n
  induction n with
  | zero =>
    intro _ k hk1 hk2
    exact absurd (Nat.lt_of_lt_of_le hk1 hk2) (Nat.lt_irrefl _)
  | succ n ih =>
    intro h k hk1 hk2
    unfold scanIdx at h
    by_cases hc : popCond lines (n + 1)
    · simp [hc] at h
    · simp [hc] at h
      by_cases hkn : k ≤ n
      · exact ih h k hk1 hkn
      · have hk : k = n + 1 := by omega
        subst hk
        exact Bool.eq_false_iff.mpr hc

/-- C10: the trailing-bracket cleanup removes at most one line — the output
has at least (input lines − 1) lines; when some index qualifies (stripped
line `');'` at a positive index, stripped preceding line one of `')'`,
`'},'`, `');'`), the pass deletes exactly the last such line and stops;
when no index qualifies, the lines are unchanged. -/
theorem cleanup_removes_at_most_one_line (content : String) :
    ((linesOf content).length - 1 ≤ (removeExtraClosing (linesOf content)).length) ∧
    (∀ j, qualifies (linesOf content) j →
      ∃ i, qualifies (linesOf content) i ∧
        (∀ k, qualifies (linesOf content) k → k ≤ i) ∧
        removeExtraClosing (linesOf content) = (linesOf content).eraseIdx i) ∧
    ((∀ i, ¬ qualifies (linesOf content) i) →
      removeExtraClosing (linesOf content) = linesOf content) := by
  generalize linesOf content = lines
  cases hscan : scanIdx lines (lines.length - 1) with
  | none =>
    have hnone := scanIdx_none_spec lines _ hscan
    have hre : removeExtraClosing lines = lines := by
      unfold removeExtraClosing
      rw [hscan]
    refine ⟨by rw [hre]; omega, ?_, fun _ => hre⟩
    intro j hj
    exfalso
    obtain ⟨hj1, hj2, hjc⟩ := (qualifies_iff lines j).mp hj
    have hf : popCond lines j = false := hnone j hj1 (by omega)
    rw [hjc] at hf
    exact Bool.noConfusion hf
  | some i =>
    obtain ⟨h1, h2, h3, h4⟩ := scanIdx_some_spec lines _ i hscan
    have hre : removeExtraClosing lines = lines.eraseIdx i := by
      unfold removeExtraClosing
      rw [hscan]
    have hqi : qualifies lines i := (qualifies_iff lines i).mpr ⟨h1, by omega, h3⟩
    refine ⟨by rw [hre]; exact length_eraseIdx_ge lines i, ?_, ?_⟩
    · intro j hj
      refine ⟨i, hqi, ?_, hre⟩
      intro k hk
      obtain ⟨hk1, hk2, hkc⟩ := (qualifies_iff lines k).mp hk
      by_contra hik
      push_neg at hik
      have hf : popCond lines k = false := h4 k hik (by omega)
      rw [hkc] at hf
      exact Bool.noConfusion hf
    · intro hnone
      exact absurd hqi (hnone i)

end Talowa
